import Mathlib

/-!
Shallow embedding of the energy-service extension (Go, `pkg/service` and
`pkg/storage`) and proofs about its energy regeneration, consume/refill
transactions, loot rolling, config updates and storage read behaviour.

Modelling conventions:
- Go `int32`/`int64`/`int` values are modelled as `Int` (the service's
  quantities stay far from the 32/64-bit bounds on the inputs the claims
  are about).
- Go maps used as lookup tables become functions `String → Option _`;
  the player inventory map becomes an association list.
- Go's truncated integer division `/` and remainder `%` are `Int.tdiv`
  and `Int.tmod`; a Go division or remainder by zero is a runtime panic,
  modelled by returning `none`.
- `rand.Intn(n)` / `rand.Int31n(n)` are modelled by an abstract stream of
  draws `rng : Nat → Nat` indexed by the sequential call counter, with the
  drawn value reduced modulo `n`, which captures exactly the documented
  range contract `0 ≤ value < n`.
- Each gRPC handler is embedded as a pure function of the stored record
  (the sequential, single-client semantics: both reads a handler performs
  return the same record), the request fields and the current time `now`
  (the handler's `time.Now().Unix()`).  Its result records the response
  and the list of records written through `SaveEnergyData`; `none` models
  a runtime panic.
-/

/-- Stored record, `storage.EnergyData` (storage.go). -/
structure EnergyData where
  userId : String
  currentEnergy : Int
  maxEnergy : Int
  lastUpdateTime : Int
  regenRateSeconds : Int
  level : Int
  inventory : List (String × Int)
deriving Repr, DecidableEq

/-- `storage.DefaultMaxEnergy`. -/
def DefaultMaxEnergy : Int := 100

/-- `storage.DefaultRegenRateSeconds`. -/
def DefaultRegenRateSeconds : Int := 300

/-- `storage.DefaultStartingEnergy`. -/
def DefaultStartingEnergy : Int := 100

/-- `storage.DefaultLevel`. -/
def DefaultLevel : Int := 1

/-- Derived state, `pb.EnergyState` as filled in by `calculateEnergyState`. -/
structure EnergyState where
  userId : String
  currentEnergy : Int
  maxEnergy : Int
  lastUpdateTime : Int
  regenRateSeconds : Int
  nextRegenTime : Int
  energyToMax : Int
  timeToMaxSeconds : Int
deriving Repr, DecidableEq

/-- The `regenPoints` local of `calculateEnergyState`: whole regeneration
points accrued between the stored checkpoint and `now`. -/
def regenPoints (data : EnergyData) (now : Int) : Int :=
  if 0 < data.regenRateSeconds ∧ 0 < now - data.lastUpdateTime then
    Int.tdiv (now - data.lastUpdateTime) data.regenRateSeconds
  else 0

/-- `calculateEnergyState` (service, lines 683-727).  `none` models the Go
runtime panic of `elapsedSeconds % 0` when `RegenRateSeconds = 0` and the
regenerated energy is below the cap. -/
def calculateEnergyState (data : EnergyData) (now : Int) : Option EnergyState :=
  let elapsedSeconds := now - data.lastUpdateTime
  let rp := regenPoints data now
  let currentEnergy := min (data.currentEnergy + rp) data.maxEnergy
  let energyToMax := data.maxEnergy - currentEnergy
  if currentEnergy < data.maxEnergy then
    if data.regenRateSeconds = 0 then none
    else
      let usedSeconds := Int.tmod elapsedSeconds data.regenRateSeconds
      let secondsToNext := data.regenRateSeconds - usedSeconds
      some { userId := data.userId, currentEnergy := currentEnergy,
             maxEnergy := data.maxEnergy, lastUpdateTime := data.lastUpdateTime,
             regenRateSeconds := data.regenRateSeconds,
             nextRegenTime := now + secondsToNext,
             energyToMax := energyToMax,
             timeToMaxSeconds := energyToMax * data.regenRateSeconds - usedSeconds }
  else
    some { userId := data.userId, currentEnergy := currentEnergy,
           maxEnergy := data.maxEnergy, lastUpdateTime := data.lastUpdateTime,
           regenRateSeconds := data.regenRateSeconds,
           nextRegenTime := 0, energyToMax := energyToMax, timeToMaxSeconds := 0 }

example :
    calculateEnergyState ⟨"p", 50, 100, 1000, 300, 1, []⟩ 1450 =
      some ⟨"p", 51, 100, 1000, 300, 1600, 49, 14550⟩ := by decide

example : calculateEnergyState ⟨"p", 50, 100, 0, 0, 1, []⟩ 100 = none := by decide

example :
    calculateEnergyState ⟨"p", 10, 100, 0, 300, 1, []⟩ 30000 =
      some ⟨"p", 100, 100, 0, 300, 0, 0, 0⟩ := by decide

/-- `LootEntry` (service, lines 25-31). -/
structure LootEntry where
  itemID : String
  itemName : String
  minQty : Int
  maxQty : Int
  weight : Int
deriving Repr, DecidableEq

/-- `pb.LootItem` as built by `rollLoot`. -/
structure LootItem where
  itemId : String
  itemName : String
  quantity : Int
deriving Repr, DecidableEq

/-- `actionEnergyCosts` map (service, lines 34-37). -/
def actionEnergyCosts (actionType : String) : Option Int :=
  if actionType = "fight" then some 10
  else if actionType = "explore" then some 5
  else none

/-- `refillAmounts` map (service, lines 40-45). -/
def refillAmounts (source : String) : Option Int :=
  if source = "daily" then some 50
  else if source = "ad" then some 20
  else if source = "purchase" then some 100
  else if source = "debug" then some 100
  else none

/-- The `"fight"` loot table (service, lines 49-54). -/
def fightTable : List LootEntry :=
  [⟨"gold", "Gold", 5, 20, 50⟩,
   ⟨"iron_ore", "Iron Ore", 1, 3, 30⟩,
   ⟨"gem", "Gem", 1, 1, 10⟩,
   ⟨"sword_shard", "Sword Shard", 1, 2, 10⟩]

/-- The `"explore"` loot table (service, lines 55-60). -/
def exploreTable : List LootEntry :=
  [⟨"gold", "Gold", 2, 10, 40⟩,
   ⟨"herb", "Herb", 1, 5, 35⟩,
   ⟨"map_piece", "Map Piece", 1, 1, 15⟩,
   ⟨"gem", "Gem", 1, 1, 10⟩]

/-- `lootTables` map (service, lines 48-61). -/
def lootTables (actionType : String) : Option (List LootEntry) :=
  if actionType = "fight" then some fightTable
  else if actionType = "explore" then some exploreTable
  else none

/-- The table `rollLoot` uses: the action's own table, defaulting to the
`"fight"` table for unknown actions (service, lines 65-69). -/
def selectedTable (actionType : String) : List LootEntry :=
  match lootTables actionType with
  | some t => t
  | none => fightTable

/-- Total weight of a table, as accumulated by the loop in `rollLoot`
(service, lines 78-81). -/
def totalWeight : List LootEntry → Int
  | [] => 0
  | e :: rest => e.weight + totalWeight rest

/-- One `rand.Intn(n)` / `rand.Int31n(n)` draw from the abstract stream:
the drawn seed reduced into `[0, n)` (for `0 < n`). -/
def intn (seed : Nat) (n : Int) : Int :=
  Int.ofNat seed % n

/-- The cumulative-weight walk of `rollLoot` (service, lines 87-104):
entries accumulate weight and the first entry whose running sum exceeds
the roll is selected. -/
def pickEntry (roll : Int) : List LootEntry → Int → Option LootEntry
  | [], _ => none
  | e :: rest, cumulative =>
    if roll < cumulative + e.weight then some e
    else pickEntry roll rest (cumulative + e.weight)

/-- The drop loop of `rollLoot` (service, lines 76-105): roll an entry per
drop and a quantity when `MaxQty > MinQty`; `ctr` is the sequential index
of the next random draw. -/
def rollDrops (rng : Nat → Nat) (table : List LootEntry) : Nat → Nat → List LootItem
  | _, 0 => []
  | ctr, n + 1 =>
    let roll := intn (rng ctr) (totalWeight table)
    match pickEntry roll table 0 with
    | none => rollDrops rng table (ctr + 1) n
    | some entry =>
      if entry.maxQty > entry.minQty then
        let qty := entry.minQty + intn (rng (ctr + 1)) (entry.maxQty - entry.minQty + 1)
        ⟨entry.itemID, entry.itemName, qty⟩ :: rollDrops rng table (ctr + 2) n
      else
        ⟨entry.itemID, entry.itemName, entry.minQty⟩ :: rollDrops rng table (ctr + 1) n

/-- `rollLoot` (service, lines 64-108): 1-3 independent weighted draws from
the selected table. -/
def rollLoot (rng : Nat → Nat) (actionType : String) : List LootItem :=
  let numDrops := rng 0 % 3 + 1
  rollDrops rng (selectedTable actionType) 1 numDrops

example : rollLoot (fun _ => 0) "fight" = [⟨"gold", "Gold", 5⟩] := by decide

example :
    rollLoot (fun k => if k = 0 then 1 else 55) "explore" =
      [⟨"herb", "Herb", 1⟩, ⟨"herb", "Herb", 1⟩] := by decide

/-- `inventory[itemId] += qty` on the association-list model of the Go
inventory map (missing keys count as 0). -/
def invAdd (inv : List (String × Int)) (itemId : String) (qty : Int) : List (String × Int) :=
  match inv with
  | [] => [(itemId, qty)]
  | (k, v) :: rest =>
    if k = itemId then (k, v + qty) :: rest else (k, v) :: invAdd rest itemId qty

/-- The loot-merging loop of `ConsumeMyEnergy` (service, lines 209-211). -/
def addLoot (inv : List (String × Int)) : List LootItem → List (String × Int)
  | [] => inv
  | item :: rest => addLoot (invAdd inv item.itemId item.quantity) rest

/-- The default record built by `getOrCreateEnergyState` for a new player
(service, lines 660-669). -/
def defaultEnergyData (userId : String) (now : Int) : EnergyData :=
  { userId := userId, currentEnergy := DefaultStartingEnergy,
    maxEnergy := DefaultMaxEnergy, lastUpdateTime := now,
    regenRateSeconds := DefaultRegenRateSeconds, level := DefaultLevel,
    inventory := [] }

/-- The load-or-initialize step of `getOrCreateEnergyState` (service, lines
650-680): the record the handler works on, plus the initialization write
performed for a new player. -/
def getOrCreateData (stored : Option EnergyData) (userId : String) (now : Int) :
    EnergyData × List EnergyData :=
  match stored with
  | some d => (d, [])
  | none => (defaultEnergyData userId now, [defaultEnergyData userId now])

/-- Outcome of a handler: an invalid-argument rejection, or a response
together with the records written through `SaveEnergyData`. -/
inductive OpResult (α : Type) where
  | invalidArgument
  | ok (resp : α) (writes : List EnergyData)
deriving Repr, DecidableEq

/-- `pb.ConsumeEnergyResponse` (the fields the engine computes). -/
structure ConsumeResponse where
  energyState : EnergyState
  success : Bool
  loot : List LootItem
deriving Repr, DecidableEq

/-- `pb.RefillEnergyResponse` / admin consume response shape. -/
structure EnergyOpResponse where
  energyState : EnergyState
  success : Bool
deriving Repr, DecidableEq

/-- `pb.EnergyConfig` as returned by the config endpoints. -/
structure ConfigResponse where
  maxEnergy : Int
  regenRateSeconds : Int
  level : Int
deriving Repr, DecidableEq

/-- `ConsumeMyEnergy` (service, lines 150-237).  In the sequential model the
second `GetEnergyData` read (line 178) returns the record `getOrCreateData`
settled on, so `currentData` is that record.  `none` models a runtime panic
(division or remainder by a zero regen rate). -/
def consumeMyEnergy (stored : Option EnergyData) (userId actionType : String)
    (rng : Nat → Nat) (now : Int) : Option (OpResult ConsumeResponse) :=
  match actionEnergyCosts actionType with
  | none => some .invalidArgument
  | some energyCost =>
    let dataInit := getOrCreateData stored userId now
    let data := dataInit.1
    match calculateEnergyState data now with
    | none => none
    | some energyState =>
      if energyState.currentEnergy < energyCost then
        some (.ok ⟨energyState, false, []⟩ dataInit.2)
      else
        let inventory := data.inventory
        let newEnergy := energyState.currentEnergy - energyCost
        let newLastUpdateTime : Option Int :=
          if energyState.currentEnergy ≥ energyState.maxEnergy then some now
          else if energyState.regenRateSeconds = 0 then none
          else some (data.lastUpdateTime +
            Int.tdiv (now - data.lastUpdateTime) energyState.regenRateSeconds *
              energyState.regenRateSeconds)
        match newLastUpdateTime with
        | none => none
        | some newLastUpdateTime =>
          let loot := rollLoot rng actionType
          let updatedData : EnergyData :=
            { userId := userId, currentEnergy := newEnergy,
              maxEnergy := energyState.maxEnergy,
              lastUpdateTime := newLastUpdateTime,
              regenRateSeconds := energyState.regenRateSeconds,
              level := 1, inventory := addLoot inventory loot }
          match calculateEnergyState updatedData now with
          | none => none
          | some newState =>
            some (.ok ⟨newState, true, loot⟩ (dataInit.2 ++ [updatedData]))

/-- `RefillMyEnergy` (service, lines 240-307).  The checkpoint division
(line 277) runs unconditionally for an existing record, so a zero regen
rate panics (`none`) even at the energy cap. -/
def refillMyEnergy (stored : Option EnergyData) (userId source : String)
    (now : Int) : Option (OpResult EnergyOpResponse) :=
  match refillAmounts source with
  | none => some .invalidArgument
  | some refillAmount =>
    let dataInit := getOrCreateData stored userId now
    let data := dataInit.1
    match calculateEnergyState data now with
    | none => none
    | some energyState =>
      let newEnergy := min (energyState.currentEnergy + refillAmount) energyState.maxEnergy
      let newLastUpdateTime : Option Int :=
        if energyState.regenRateSeconds = 0 then none
        else some (data.lastUpdateTime +
          Int.tdiv (now - data.lastUpdateTime) energyState.regenRateSeconds *
            energyState.regenRateSeconds)
      match newLastUpdateTime with
      | none => none
      | some newLastUpdateTime =>
        let updatedData : EnergyData :=
          { userId := userId, currentEnergy := newEnergy,
            maxEnergy := energyState.maxEnergy,
            lastUpdateTime := newLastUpdateTime,
            regenRateSeconds := energyState.regenRateSeconds,
            level := 1, inventory := data.inventory }
        match calculateEnergyState updatedData now with
        | none => none
        | some newState =>
          some (.ok ⟨newState, true⟩ (dataInit.2 ++ [updatedData]))

/-- Admin `ConsumeEnergy` (service, lines 397-447): caller-supplied raw
amount, checkpoint always reset to `now`; the saved record carries no
`Inventory` field (Go nil map, modelled as `[]`) and `Level: 1`. -/
def consumeEnergy (stored : Option EnergyData) (userId : String) (amount : Int)
    (now : Int) : Option (OpResult EnergyOpResponse) :=
  if amount ≤ 0 then some .invalidArgument
  else
    let dataInit := getOrCreateData stored userId now
    match calculateEnergyState dataInit.1 now with
    | none => none
    | some energyState =>
      if energyState.currentEnergy < amount then
        some (.ok ⟨energyState, false⟩ dataInit.2)
      else
        let updatedData : EnergyData :=
          { userId := userId, currentEnergy := energyState.currentEnergy - amount,
            maxEnergy := energyState.maxEnergy, lastUpdateTime := now,
            regenRateSeconds := energyState.regenRateSeconds,
            level := 1, inventory := [] }
        match calculateEnergyState updatedData now with
        | none => none
        | some newState =>
          some (.ok ⟨newState, true⟩ (dataInit.2 ++ [updatedData]))

/-- Admin `RefillEnergy` (service, lines 450-494): caller-supplied raw
amount, checkpoint reset to `now`, no `Inventory` field, `Level: 1`. -/
def refillEnergy (stored : Option EnergyData) (userId : String) (amount : Int)
    (now : Int) : Option (OpResult EnergyOpResponse) :=
  if amount ≤ 0 then some .invalidArgument
  else
    let dataInit := getOrCreateData stored userId now
    match calculateEnergyState dataInit.1 now with
    | none => none
    | some energyState =>
      let updatedData : EnergyData :=
        { userId := userId,
          currentEnergy := min (energyState.currentEnergy + amount) energyState.maxEnergy,
          maxEnergy := energyState.maxEnergy, lastUpdateTime := now,
          regenRateSeconds := energyState.regenRateSeconds,
          level := 1, inventory := [] }
      match calculateEnergyState updatedData now with
      | none => none
      | some newState =>
        some (.ok ⟨newState, true⟩ (dataInit.2 ++ [updatedData]))

/-- Admin `UpdateEnergyConfig` (service, lines 528-575): `0` (and any
non-positive value) is the no-change sentinel, the checkpoint is reset to
`now`, the derived current energy is carried through uncapped, and the
saved record has no `Inventory` field and `Level: 1`. -/
def updateEnergyConfig (stored : Option EnergyData) (userId : String)
    (reqMaxEnergy reqRegenRateSeconds : Int) (now : Int) :
    Option (OpResult ConfigResponse) :=
  let dataInit := getOrCreateData stored userId now
  match calculateEnergyState dataInit.1 now with
  | none => none
  | some energyState =>
    let newMaxEnergy := if reqMaxEnergy > 0 then reqMaxEnergy else energyState.maxEnergy
    let newRegenRate :=
      if reqRegenRateSeconds > 0 then reqRegenRateSeconds else energyState.regenRateSeconds
    let updatedData : EnergyData :=
      { userId := userId, currentEnergy := energyState.currentEnergy,
        maxEnergy := newMaxEnergy, lastUpdateTime := now,
        regenRateSeconds := newRegenRate, level := 1, inventory := [] }
    some (.ok ⟨newMaxEnergy, newRegenRate, 1⟩ (dataInit.2 ++ [updatedData]))

/-- What the CloudSave client call inside `GetEnergyData` (storage.go,
lines 86-108) produced: an error from the call itself (of any kind,
not-found or otherwise), or a response whose value parses (or fails to
parse) into an `EnergyData`. -/
inductive CloudSaveReadResult where
  | callError (msg : String)
  | response (parsed : Except String EnergyData)

/-- `CloudsaveStorage.GetEnergyData` (storage.go, lines 86-108): any error
from the client call is answered with `(nil, nil)`, i.e. reported to the
caller as an absent record; only parse failures of a successful response
propagate as errors. -/
def getEnergyData : CloudSaveReadResult → Except String (Option EnergyData)
  | .callError _ => .ok none
  | .response (.error msg) => .error msg
  | .response (.ok d) => .ok (some d)

/-! Helper lemmas about the regeneration function. -/

theorem calculateEnergyState_fields (data : EnergyData) (now : Int) (s : EnergyState)
    (h : calculateEnergyState data now = some s) :
    s.currentEnergy = min (data.currentEnergy + regenPoints data now) data.maxEnergy ∧
    s.maxEnergy = data.maxEnergy ∧ s.regenRateSeconds = data.regenRateSeconds ∧
    s.lastUpdateTime = data.lastUpdateTime := by
  simp only [calculateEnergyState] at h
  split at h
  · split at h
    · exact absurd h (by simp)
    · injection h with h
      subst h
      exact ⟨rfl, rfl, rfl, rfl⟩
  · injection h with h
    subst h
    exact ⟨rfl, rfl, rfl, rfl⟩

theorem calculateEnergyState_isSome (data : EnergyData) (now : Int)
    (h : data.regenRateSeconds ≠ 0) :
    ∃ s, calculateEnergyState data now = some s := by
  simp only [calculateEnergyState, if_neg h]
  split
  · exact ⟨_, rfl⟩
  · exact ⟨_, rfl⟩

theorem regenPoints_mono (data : EnergyData) {t1 t2 : Int} (h : t1 ≤ t2) :
    regenPoints data t1 ≤ regenPoints data t2 := by
  unfold regenPoints
  split
  · next h1 =>
    split
    · next h2 =>
      rw [Int.tdiv_eq_ediv (le_of_lt h1.2) (le_of_lt h1.1),
        Int.tdiv_eq_ediv (le_of_lt h2.2) (le_of_lt h2.1)]
      exact Int.ediv_le_ediv h1.1 (by omega)
    · next h2 => exact absurd ⟨h1.1, by omega⟩ h2
  · next h1 =>
    split
    · next h2 =>
      rw [Int.tdiv_eq_ediv (le_of_lt h2.2) (le_of_lt h2.1)]
      exact Int.ediv_nonneg (le_of_lt h2.2) (le_of_lt h2.1)
    · next => exact le_refl 0

/-- C7: for a fixed record and times t1 ≤ t2 with no mutation in between,
the derived current energy at t1 is at most the derived current energy at
t2 (derived energy is monotonically non-decreasing in elapsed time). -/
theorem derive_monotone (r : EnergyData) (t1 t2 : Int) (s1 s2 : EnergyState)
    (h12 : t1 ≤ t2)
    (h1 : calculateEnergyState r t1 = some s1)
    (h2 : calculateEnergyState r t2 = some s2) :
    s1.currentEnergy ≤ s2.currentEnergy := by
  obtain ⟨e1, -, -, -⟩ := calculateEnergyState_fields r t1 s1 h1
  obtain ⟨e2, -, -, -⟩ := calculateEnergyState_fields r t2 s2 h2
  rw [e1, e2]
  have := regenPoints_mono r h12
  omega

theorem derive_monotone_witness :
    ∃ s1 s2, calculateEnergyState ⟨"p7", 10, 100, 0, 300, 1, []⟩ 0 = some s1 ∧
      calculateEnergyState ⟨"p7", 10, 100, 0, 300, 1, []⟩ 650 = some s2 ∧
      s1.currentEnergy ≤ s2.currentEnergy :=
  ⟨⟨"p7", 10, 100, 0, 300, 300, 90, 27000⟩, ⟨"p7", 12, 100, 0, 300, 900, 88, 26350⟩,
    rfl, rfl,
    derive_monotone ⟨"p7", 10, 100, 0, 300, 1, []⟩ 0 650 _ _ (by decide) rfl rfl⟩

/-- C10: for a record with a positive regen rate, a query time at or after
the checkpoint, and derived energy strictly below the cap, the predicted
next regen instant lies in the half-open window (now, now + regenRateSeconds]. -/
theorem nextRegen_bounds (r : EnergyData) (now : Int) (s : EnergyState)
    (hrate : 0 < r.regenRateSeconds) (hnow : r.lastUpdateTime ≤ now)
    (hcalc : calculateEnergyState r now = some s)
    (hbelow : s.currentEnergy < r.maxEnergy) :
    now < s.nextRegenTime ∧ s.nextRegenTime ≤ now + r.regenRateSeconds := by
  simp only [calculateEnergyState] at hcalc
  split at hcalc
  · rw [if_neg (by omega)] at hcalc
    injection hcalc with h
    subst h
    have hm0 := Int.emod_nonneg (now - r.lastUpdateTime)
      (show r.regenRateSeconds ≠ 0 by omega)
    have hm1 := Int.emod_lt_of_pos (now - r.lastUpdateTime) hrate
    have ht : Int.tmod (now - r.lastUpdateTime) r.regenRateSeconds =
        (now - r.lastUpdateTime) % r.regenRateSeconds :=
      Int.tmod_eq_emod (by omega) (le_of_lt hrate)
    dsimp only
    rw [ht]
    omega
  · next hcap =>
    injection hcalc with h
    subst h
    dsimp only at hbelow
    omega

theorem nextRegen_bounds_witness :
    ∃ s, calculateEnergyState ⟨"pa", 10, 100, 0, 300, 1, []⟩ 450 = some s ∧
      450 < s.nextRegenTime ∧ s.nextRegenTime ≤ 450 + 300 :=
  ⟨⟨"pa", 11, 100, 0, 300, 600, 89, 26550⟩, rfl,
    nextRegen_bounds ⟨"pa", 10, 100, 0, 300, 1, []⟩ 450 _ (by decide) (by decide) rfl
      (by decide)⟩

/-- C4 counterexample: the derivation function is not total on all records.
On a record with `regenRateSeconds = 0` whose energy is below the cap the
timing computation takes the remainder by zero, a Go runtime panic
(modelled as `none`) rather than a returned state. -/
theorem calculateEnergyState_rate_zero_fails :
    calculateEnergyState ⟨"p", 50, 100, 0, 0, 1, []⟩ 100 = none := by decide

/-- C4 (amended): the derivation function is deterministic and returns a
DerivedEnergyState for every record with a non-zero regen rate, and for a
negative regen rate the regenerated points are 0 (the current energy is the
stored energy capped at max); only `regenRateSeconds = 0` below the cap
fails (division by zero). -/
theorem calculateEnergyState_total_of_rate_ne_zero (data : EnergyData) (now : Int)
    (h : data.regenRateSeconds ≠ 0) :
    (∃ s, calculateEnergyState data now = some s) ∧
    (data.regenRateSeconds < 0 →
      ∃ s, calculateEnergyState data now = some s ∧
        s.currentEnergy = min data.currentEnergy data.maxEnergy) := by
  obtain ⟨s, hs⟩ := calculateEnergyState_isSome data now h
  refine ⟨⟨s, hs⟩, fun hneg => ⟨s, hs, ?_⟩⟩
  obtain ⟨hc, -, -, -⟩ := calculateEnergyState_fields data now s hs
  rw [hc]
  unfold regenPoints
  rw [if_neg (by omega)]
  omega

/-! Loot roller lemmas. -/

theorem pickEntry_mem {roll : Int} {t : List LootEntry} {cum : Int} {e : LootEntry}
    (h : pickEntry roll t cum = some e) : e ∈ t := by
  induction t generalizing cum with
  | nil => simp [pickEntry] at h
  | cons x rest ih =>
    unfold pickEntry at h
    split at h
    · injection h with h
      subst h
      exact List.mem_cons_self _ _
    · exact List.mem_cons_of_mem _ (ih h)

theorem pickEntry_isSome {roll : Int} {t : List LootEntry} {cum : Int}
    (hlo : cum ≤ roll) (hhi : roll < cum + totalWeight t) :
    ∃ e, pickEntry roll t cum = some e := by
  induction t generalizing cum with
  | nil =>
    simp only [totalWeight] at hhi
    exact absurd hlo (by omega)
  | cons x rest ih =>
    unfold pickEntry
    split
    · exact ⟨x, rfl⟩
    · next hnot =>
      simp only [totalWeight] at hhi
      exact ih (by omega) (by omega)

theorem rollDrops_sound (rng : Nat → Nat) (table : List LootEntry)
    (hw : 0 < totalWeight table)
    (hq : ∀ e ∈ table, e.minQty ≤ e.maxQty) :
    ∀ n ctr, (rollDrops rng table ctr n).length = n ∧
      ∀ item ∈ rollDrops rng table ctr n,
        ∃ e ∈ table, item.itemId = e.itemID ∧
          e.minQty ≤ item.quantity ∧ item.quantity ≤ e.maxQty := by
  intro n
  induction n with
  | zero =>
    intro ctr
    exact ⟨rfl, by intro item h; simp [rollDrops] at h⟩
  | succ n ih =>
    intro ctr
    have h0 : (0:Int) ≤ intn (rng ctr) (totalWeight table) :=
      Int.emod_nonneg _ (by omega)
    have h1 : intn (rng ctr) (totalWeight table) < totalWeight table :=
      Int.emod_lt_of_pos _ hw
    obtain ⟨e, he⟩ := @pickEntry_isSome _ table 0 h0 (by omega)
    have hmem := pickEntry_mem he
    simp only [rollDrops, he]
    split
    · next hgt =>
      refine ⟨by simp [(ih (ctr + 2)).1], ?_⟩
      intro item hitem
      rcases List.mem_cons.mp hitem with h | h
      · subst h
        refine ⟨e, hmem, rfl, ?_, ?_⟩
        · have := Int.emod_nonneg (Int.ofNat (rng (ctr + 1)))
            (show e.maxQty - e.minQty + 1 ≠ 0 by omega)
          simp only [intn]
          omega
        · have := Int.emod_lt_of_pos (Int.ofNat (rng (ctr + 1)))
            (show (0:Int) < e.maxQty - e.minQty + 1 by omega)
          simp only [intn]
          omega
      · exact (ih (ctr + 2)).2 item h
    · next hgt =>
      refine ⟨by simp [(ih (ctr + 1)).1], ?_⟩
      intro item hitem
      rcases List.mem_cons.mp hitem with h | h
      · subst h
        exact ⟨e, hmem, rfl, le_refl _, hq e hmem⟩
      · exact (ih (ctr + 1)).2 item h

/-- C6: every roll returns between 1 and 3 drops, and every drop names an
item of the selected table (the action's own table, or the default
`"fight"` table for unknown actions) with a quantity within that entry's
inclusive `[minQty, maxQty]` range. -/
theorem rollLoot_sound (rng : Nat → Nat) (actionType : String) :
    1 ≤ (rollLoot rng actionType).length ∧ (rollLoot rng actionType).length ≤ 3 ∧
    ∀ item ∈ rollLoot rng actionType,
      ∃ e ∈ selectedTable actionType, item.itemId = e.itemID ∧
        e.minQty ≤ item.quantity ∧ item.quantity ≤ e.maxQty := by
  have htab : selectedTable actionType = fightTable ∨
      selectedTable actionType = exploreTable := by
    unfold selectedTable lootTables
    by_cases h1 : actionType = "fight" <;> by_cases h2 : actionType = "explore" <;>
      simp [h1, h2]
  have hw : 0 < totalWeight (selectedTable actionType) := by
    rcases htab with h | h <;> rw [h] <;> decide
  have hq : ∀ e ∈ selectedTable actionType, e.minQty ≤ e.maxQty := by
    rcases htab with h | h <;> rw [h] <;> decide
  have hmain := rollDrops_sound rng (selectedTable actionType) hw hq (rng 0 % 3 + 1) 1
  unfold rollLoot
  refine ⟨?_, ?_, hmain.2⟩
  · rw [hmain.1]
    omega
  · rw [hmain.1]
    have := Nat.mod_lt (rng 0) (show 0 < 3 by omega)
    omega

theorem calculateEnergyState_total_witness :
    (∃ s, calculateEnergyState ⟨"p4", 50, 100, 0, -5, 1, []⟩ 100 = some s) ∧
    ((-5:Int) < 0 →
      ∃ s, calculateEnergyState ⟨"p4", 50, 100, 0, -5, 1, []⟩ 100 = some s ∧
        s.currentEnergy = min (50:Int) 100) :=
  calculateEnergyState_total_of_rate_ne_zero ⟨"p4", 50, 100, 0, -5, 1, []⟩ 100 (by decide)

/-! Transaction-engine theorems. -/

/-- C2: a consume of a valid action on an existing record whose derived
energy is below the server-side cost returns accepted=false with the
unchanged derived state, performs no persistence write, and yields no loot. -/
theorem consume_insufficient (r : EnergyData) (userId actionType : String)
    (rng : Nat → Nat) (now cost : Int) (es : EnergyState)
    (ha : actionEnergyCosts actionType = some cost)
    (hes : calculateEnergyState r now = some es)
    (hlow : es.currentEnergy < cost) :
    consumeMyEnergy (some r) userId actionType rng now =
      some (.ok ⟨es, false, []⟩ []) := by
  simp only [consumeMyEnergy, getOrCreateData, ha, hes]
  rw [if_pos hlow]

theorem consume_insufficient_witness :
    consumeMyEnergy (some ⟨"p2", 3, 100, 0, 300, 1, []⟩) "p2" "fight" (fun _ => 0) 0 =
      some (.ok ⟨⟨"p2", 3, 100, 0, 300, 300, 97, 29100⟩, false, []⟩ []) :=
  consume_insufficient ⟨"p2", 3, 100, 0, 300, 1, []⟩ "p2" "fight" (fun _ => 0) 0 10
    ⟨"p2", 3, 100, 0, 300, 300, 97, 29100⟩ rfl (by decide) (by decide)

/-- C1: an accepted consume of a valid action on an existing record writes
exactly one record, whose checkpoint follows the update rule: `now` if the
pre-transaction derived energy had reached the cap, and otherwise the
stored checkpoint advanced by the whole number of accrued regen intervals,
`storedLastUpdateTime + ((now - storedLastUpdateTime) div regenRateSeconds)
* regenRateSeconds`. -/
theorem consume_checkpoint (r : EnergyData) (userId actionType : String)
    (rng : Nat → Nat) (now cost : Int) (es : EnergyState)
    (resp : ConsumeResponse) (ws : List EnergyData)
    (ha : actionEnergyCosts actionType = some cost)
    (hes : calculateEnergyState r now = some es)
    (hc : consumeMyEnergy (some r) userId actionType rng now = some (.ok resp ws))
    (hsucc : resp.success = true) :
    ∃ d, ws = [d] ∧
      d.lastUpdateTime =
        (if es.currentEnergy ≥ es.maxEnergy then now
         else r.lastUpdateTime +
           Int.tdiv (now - r.lastUpdateTime) r.regenRateSeconds * r.regenRateSeconds) := by
  obtain ⟨-, -, hrs, -⟩ := calculateEnergyState_fields r now es hes
  simp only [consumeMyEnergy, getOrCreateData, hes, ha] at hc
  split at hc
  · next hlow =>
    simp only [Option.some.injEq, OpResult.ok.injEq] at hc
    obtain ⟨h1, -⟩ := hc
    rw [← h1] at hsucc
    simp at hsucc
  · next hge =>
    split at hc
    · next hcap => exact Option.noConfusion hc
    · next nl hcap =>
      split at hc
      · next heq => exact Option.noConfusion hc
      · next ns heq =>
        simp only [Option.some.injEq, OpResult.ok.injEq, List.nil_append] at hc
        obtain ⟨-, h2⟩ := hc
        refine ⟨_, h2.symm, ?_⟩
        show nl = _
        by_cases hcap2 : es.currentEnergy ≥ es.maxEnergy
        · rw [if_pos hcap2] at hcap ⊢
          injection hcap with hcap
          exact hcap.symm
        · rw [if_neg hcap2] at hcap ⊢
          rw [hrs] at hcap
          split at hcap
          · exact Option.noConfusion hcap
          · injection hcap with hcap
            exact hcap.symm

theorem consume_checkpoint_witness :
    ∃ d, ([(⟨"p1", 41, 100, 1300, 300, 1, [("gold", 5)]⟩ : EnergyData)] = [d]) ∧
      d.lastUpdateTime = 1300 := by
  obtain ⟨d, hd1, hd2⟩ :=
    consume_checkpoint ⟨"p1", 50, 100, 1000, 300, 1, []⟩ "p1" "fight" (fun _ => 0)
      1450 10 ⟨"p1", 51, 100, 1000, 300, 1600, 49, 14550⟩
      ⟨⟨"p1", 41, 100, 1300, 300, 1600, 59, 17550⟩, true, [⟨"gold", "Gold", 5⟩]⟩
      [⟨"p1", 41, 100, 1300, 300, 1, [("gold", 5)]⟩]
      rfl (by decide) (by decide) rfl
  exact ⟨d, hd1, by rw [hd2]; decide⟩

/-- C3: a refill of a valid source on an existing record writes exactly one
record whose checkpoint is always the stored checkpoint advanced by the
whole number of accrued regen intervals, even when the derived energy is at
the cap: refill never resets the checkpoint to `now`. -/
theorem refill_checkpoint (r : EnergyData) (userId source : String)
    (now amount : Int) (resp : EnergyOpResponse) (ws : List EnergyData)
    (hs : refillAmounts source = some amount)
    (hc : refillMyEnergy (some r) userId source now = some (.ok resp ws)) :
    ∃ d, ws = [d] ∧
      d.lastUpdateTime = r.lastUpdateTime +
        Int.tdiv (now - r.lastUpdateTime) r.regenRateSeconds * r.regenRateSeconds := by
  simp only [refillMyEnergy, getOrCreateData, hs] at hc
  split at hc
  · next heq => exact Option.noConfusion hc
  · next es heq =>
    obtain ⟨-, -, hrs, -⟩ := calculateEnergyState_fields r now es heq
    split at hc
    · next h0 => exact Option.noConfusion hc
    · next nl h0 =>
      split at hc
      · next heq2 => exact Option.noConfusion hc
      · next ns heq2 =>
        simp only [Option.some.injEq, OpResult.ok.injEq, List.nil_append] at hc
        obtain ⟨-, h2⟩ := hc
        refine ⟨_, h2.symm, ?_⟩
        show nl = _
        rw [hrs] at h0
        split at h0
        · exact Option.noConfusion h0
        · injection h0 with h0
          exact h0.symm

theorem refill_checkpoint_witness :
    ∃ d, ([(⟨"p3", 100, 100, 1300, 300, 1, []⟩ : EnergyData)] = [d]) ∧
      d.lastUpdateTime = 1300 := by
  obtain ⟨d, hd1, hd2⟩ :=
    refill_checkpoint ⟨"p3", 100, 100, 1000, 300, 1, []⟩ "p3" "daily" 1450 50
      ⟨⟨"p3", 100, 100, 1300, 300, 0, 0, 0⟩, true⟩
      [⟨"p3", 100, 100, 1300, 300, 1, []⟩] rfl (by decide)
  exact ⟨d, hd1, by rw [hd2]; decide⟩

/-- C8: a config update takes `0` as the no-change sentinel and any
positive value as an overwrite for both fields, resets the persisted
checkpoint to `now`, and carries the pre-update derived current energy
through unchanged (it is not re-capped against a lowered maxEnergy). -/
theorem updateConfig_spec (r : EnergyData) (userId : String)
    (reqMax reqRate now : Int) (es : EnergyState)
    (resp : ConfigResponse) (ws : List EnergyData)
    (hes : calculateEnergyState r now = some es)
    (hc : updateEnergyConfig (some r) userId reqMax reqRate now = some (.ok resp ws)) :
    ∃ d, ws = [d] ∧
      d.maxEnergy = (if reqMax > 0 then reqMax else r.maxEnergy) ∧
      d.regenRateSeconds = (if reqRate > 0 then reqRate else r.regenRateSeconds) ∧
      d.lastUpdateTime = now ∧ d.currentEnergy = es.currentEnergy := by
  obtain ⟨-, hmax, hrs, -⟩ := calculateEnergyState_fields r now es hes
  simp only [updateEnergyConfig, getOrCreateData, hes, Option.some.injEq,
    OpResult.ok.injEq, List.nil_append] at hc
  obtain ⟨-, h2⟩ := hc
  refine ⟨_, h2.symm, ?_, ?_, rfl, rfl⟩
  · show (if reqMax > 0 then reqMax else es.maxEnergy) = _
    rw [hmax]
  · show (if reqRate > 0 then reqRate else es.regenRateSeconds) = _
    rw [hrs]

theorem updateConfig_witness :
    ∃ d, ([(⟨"p8", 100, 50, 30000, 300, 1, []⟩ : EnergyData)] = [d]) ∧
      d.maxEnergy = 50 ∧ d.regenRateSeconds = 300 ∧ d.lastUpdateTime = 30000 ∧
      d.currentEnergy = 100 := by
  obtain ⟨d, h1, h2, h3, h4, h5⟩ :=
    updateConfig_spec ⟨"p8", 10, 100, 0, 300, 1, []⟩ "p8" 50 0 30000
      ⟨"p8", 100, 100, 0, 300, 0, 0, 0⟩ ⟨50, 300, 1⟩
      [⟨"p8", 100, 50, 30000, 300, 1, []⟩] (by decide) (by decide)
  exact ⟨d, h1, by rw [h2]; decide, by rw [h3]; decide, h4, h5⟩

/-- C9: on a stored record with a non-empty inventory or a level other
than 1, the admin-scoped raw-amount consume, the admin-scoped raw-amount
refill and the config update each persist a record whose inventory is
empty and whose level is 1: the stored inventory and level are erased
rather than carried through. -/
theorem admin_ops_erase_inventory_level (r : EnergyData) (userId : String)
    (amtC amtR reqMax reqRate now : Int)
    (respC : EnergyOpResponse) (wsC : List EnergyData)
    (respR : EnergyOpResponse) (wsR : List EnergyData)
    (respU : ConfigResponse) (wsU : List EnergyData)
    (_hver : r.inventory ≠ [] ∨ r.level ≠ 1)
    (hcC : consumeEnergy (some r) userId amtC now = some (.ok respC wsC))
    (hsC : respC.success = true)
    (hcR : refillEnergy (some r) userId amtR now = some (.ok respR wsR))
    (hcU : updateEnergyConfig (some r) userId reqMax reqRate now = some (.ok respU wsU)) :
    (∃ d, wsC = [d] ∧ d.inventory = [] ∧ d.level = 1) ∧
    (∃ d, wsR = [d] ∧ d.inventory = [] ∧ d.level = 1) ∧
    (∃ d, wsU = [d] ∧ d.inventory = [] ∧ d.level = 1) := by
  refine ⟨?_, ?_, ?_⟩
  · simp only [consumeEnergy, getOrCreateData] at hcC
    split at hcC
    · simp at hcC
    · next hamt =>
      split at hcC
      · next heq => exact Option.noConfusion hcC
      · next es heq =>
        split at hcC
        · next hlow =>
          simp only [Option.some.injEq, OpResult.ok.injEq] at hcC
          obtain ⟨h1, -⟩ := hcC
          rw [← h1] at hsC
          simp at hsC
        · next hge =>
          split at hcC
          · next => exact Option.noConfusion hcC
          · next ns heq2 =>
            simp only [Option.some.injEq, OpResult.ok.injEq, List.nil_append] at hcC
            obtain ⟨-, h2⟩ := hcC
            exact ⟨_, h2.symm, rfl, rfl⟩
  · simp only [refillEnergy, getOrCreateData] at hcR
    split at hcR
    · simp at hcR
    · next hamt =>
      split at hcR
      · next heq => exact Option.noConfusion hcR
      · next es heq =>
        split at hcR
        · next => exact Option.noConfusion hcR
        · next ns heq2 =>
          simp only [Option.some.injEq, OpResult.ok.injEq, List.nil_append] at hcR
          obtain ⟨-, h2⟩ := hcR
          exact ⟨_, h2.symm, rfl, rfl⟩
  · simp only [updateEnergyConfig, getOrCreateData] at hcU
    split at hcU
    · next heq => exact Option.noConfusion hcU
    · next es heq =>
      simp only [Option.some.injEq, OpResult.ok.injEq, List.nil_append] at hcU
      obtain ⟨-, h2⟩ := hcU
      exact ⟨_, h2.symm, rfl, rfl⟩

theorem admin_ops_erase_witness :
    (∃ d, ([(⟨"p9", 41, 100, 1450, 300, 1, []⟩ : EnergyData)] = [d]) ∧
      d.inventory = [] ∧ d.level = 1) ∧
    (∃ d, ([(⟨"p9", 71, 100, 1450, 300, 1, []⟩ : EnergyData)] = [d]) ∧
      d.inventory = [] ∧ d.level = 1) ∧
    (∃ d, ([(⟨"p9", 51, 100, 1450, 300, 1, []⟩ : EnergyData)] = [d]) ∧
      d.inventory = [] ∧ d.level = 1) :=
  admin_ops_erase_inventory_level ⟨"p9", 50, 100, 1000, 300, 3, [("gold", 5)]⟩ "p9"
    10 20 0 0 1450
    ⟨⟨"p9", 41, 100, 1450, 300, 1750, 59, 17700⟩, true⟩
    [⟨"p9", 41, 100, 1450, 300, 1, []⟩]
    ⟨⟨"p9", 71, 100, 1450, 300, 1750, 29, 8700⟩, true⟩
    [⟨"p9", 71, 100, 1450, 300, 1, []⟩]
    ⟨100, 300, 1⟩ [⟨"p9", 51, 100, 1450, 300, 1, []⟩]
    (by decide) (by decide) rfl (by decide) (by decide)

/-- C5 (code bug): `GetEnergyData` answers any failing CloudSave client
call with `(nil, nil)`, so a read failure that is not an absence is
reported to the caller as an absent record instead of being surfaced as an
internal failure. -/
theorem getEnergyData_swallows_read_error :
    getEnergyData (.callError "connection refused") = .ok none := rfl


